import Mathlib

/-!
Verification of the stock-dashboard data pipeline (`StreamlitDashboard.py`).

The script loads a CSV table, infers the date / closing-price / ticker
columns by name patterns, builds a date-sorted record table, filters it by a
date range and a ticker selection, and computes KPIs (last price, mean daily
return, annualized volatility, number of distinct days) plus a detail table
of the first 100 filtered rows.

Shallow embedding conventions:
* timestamps are natural numbers of seconds; `df.index.date` /
  `df.index.normalize()` both become the calendar-day number `ts / 86400`
  (the script never mixes the two in a way that distinguishes them);
* prices and returns are rationals; float division by zero is totalized to
  `0` (Lean's field convention), noted where it matters;
* a raw CSV cell that pandas fails to parse is modelled as `Option.none`.
-/

namespace StockDashboard

/-- Seconds per day: `df.index.normalize()` / `.date` truncate a timestamp
to its calendar day. -/
def dayOfTs (ts : Nat) : Nat := ts / 86400

/-- One normalized row of the dataframe after preprocessing: the `Fecha`
index, the `Precio_Cierre` value, and the `Ticker` label (lines 40-59). -/
structure Record where
  ts : Nat
  value : ℚ
  ticker : String
deriving DecidableEq, Repr

/-- Calendar day of a record (`df.index.date` for this row). -/
def Record.day (r : Record) : Nat := dayOfTs r.ts

/-! ### Column inference (lines 35-59) -/

/-- Python's substring test `pat in s` on lists of characters. -/
def containsChars (pat : List Char) : List Char → Bool
  | [] => pat.isEmpty
  | c :: t => pat.isPrefixOf (c :: t) || containsChars pat t

/-- `c.lower()` as a character list (the headers are ASCII, where
`Char.toLower` agrees with Python's `str.lower`). -/
def lowerChars (s : String) : List Char := s.data.map Char.toLower

/-- Python's `pat in s.lower()`: substring containment after lowering. -/
def strContainsSub (s pat : String) : Bool :=
  containsChars pat.data (lowerChars s)

/-- Line 35: `'date' in c.lower() or 'fecha' in c.lower() or 'time' in c.lower()`. -/
def isDateLike (c : String) : Bool :=
  strContainsSub c "date" || strContainsSub c "fecha" || strContainsSub c "time"

/-- Line 45: `'close' in c.lower() or 'precio' in c.lower() or 'price' in c.lower()`. -/
def isPriceLike (c : String) : Bool :=
  strContainsSub c "close" || strContainsSub c "precio" || strContainsSub c "price"

/-- Line 54: `'ticker' in c.lower() or 'symbol' in c.lower() or 'simbolo' in c.lower()`. -/
def isTickerLike (c : String) : Bool :=
  strContainsSub c "ticker" || strContainsSub c "symbol" || strContainsSub c "simbolo"

/-- `date_cols[0]` when it exists: the first date-like column name. -/
def dateColumn (cols : List String) : Option String :=
  cols.find? isDateLike

/-- `price_cols[0]` when it exists: the first price-like column name. -/
def priceColumn (cols : List String) : Option String :=
  cols.find? isPriceLike

/-- `ticker_cols[0]` when it exists: the first ticker-like column name. -/
def tickerColumn (cols : List String) : Option String :=
  cols.find? isTickerLike

/-- A raw CSV row: mapping from column name to cell text. -/
def Row : Type := List (String × String)

/-- Cell lookup `row[c]`. -/
def getCell (row : Row) (c : String) : String :=
  (row.lookup c).getD ""

/-- Lines 54-59: `df['Ticker'] = df[ticker_cols[0]]` when a ticker-like
column exists, otherwise `df['Ticker'] = 'STOCK_PRINCIPAL'` for every row. -/
def assignTickers (cols : List String) (rows : List Row) : List String :=
  match tickerColumn cols with
  | none => rows.map (fun _ => "STOCK_PRINCIPAL")
  | some c => rows.map (fun row => getCell row c)

/-! ### Filter engine (lines 88-99) -/

/-- The sidebar selection: a resolved date range (as calendar days) and the
multiselected tickers. -/
structure FilterParams where
  startDate : Nat
  endDate : Nat
  categories : List String
deriving DecidableEq, Repr

/-- Line 95-99 row predicate:
`(df.index.date >= start_date) & (df.index.date <= end_date) & (df['Ticker'].isin(sel))`. -/
def matchesFilter (ps : FilterParams) (r : Record) : Bool :=
  decide (ps.startDate ≤ r.day) && decide (r.day ≤ ps.endDate) &&
    ps.categories.contains r.ticker

/-- `df_filtrado = df[...]`: boolean-mask filtering keeps the matching rows
in store order. -/
def filterRecords (store : List Record) (ps : FilterParams) : List Record :=
  store.filter (matchesFilter ps)

/-- Lines 88-92: `if len(date_range) == 2: start, end = date_range else:
start = min_date; end = max_date`. -/
def resolveDateRange (dateRange : List Nat) (minDate maxDate : Nat) : Nat × Nat :=
  match dateRange with
  | [s, e] => (s, e)
  | _ => (minDate, maxDate)

/-- Minimum timestamp of the store (`df.index.min()`); 0 on an empty store. -/
def minTs : List Record → Nat
  | [] => 0
  | r :: rs => (rs.map Record.ts).foldl Nat.min r.ts

/-- Maximum timestamp of the store (`df.index.max()`); 0 on an empty store. -/
def maxTs : List Record → Nat
  | [] => 0
  | r :: rs => (rs.map Record.ts).foldl Nat.max r.ts

/-- Line 77: `min_date = df.index.min().date()`. -/
def storeMinDate (store : List Record) : Nat := dayOfTs (minTs store)

/-- Line 78: `max_date = df.index.max().date()`. -/
def storeMaxDate (store : List Record) : Nat := dayOfTs (maxTs store)

/-! ### Metric calculators (lines 109-123) -/

/-- pandas `Series.mean()`: sum divided by length.  On an empty series the
float result is NaN; the rational embedding totalizes `0 / 0` to `0`, the
NaN-safe sentinel value. -/
def pandasMean (xs : List ℚ) : ℚ := xs.sum / (xs.length : ℚ)

/-- Insert into a sorted list of naturals (ascending). -/
def insertNat (n : Nat) : List Nat → List Nat
  | [] => [n]
  | m :: t => if n ≤ m then n :: m :: t else m :: insertNat n t

/-- Insertion sort, ascending: pandas `groupby` emits its group keys in
sorted order. -/
def sortNats : List Nat → List Nat
  | [] => []
  | n :: t => insertNat n (sortNats t)

/-- The distinct calendar days of a view, ascending: the group keys of
`df_filtrado.groupby(df_filtrado.index.normalize())` (line 115). -/
def distinctDays (v : List Record) : List Nat :=
  sortNats (v.map Record.day).dedup

/-- Mean closing price over the records of one calendar day: the per-group
`['Precio_Cierre'].mean()` of line 115.  Groups are nonempty, so the mean's
division is by a positive count. -/
def meanOfDay (v : List Record) (d : Nat) : ℚ :=
  pandasMean ((v.filter (fun r => r.day == d)).map Record.value)

/-- Line 115 up to the mean: the daily mean-price series, ordered by day. -/
def dailyMeanSeries (v : List Record) : List ℚ :=
  (distinctDays v).map (meanOfDay v)

/-- pandas `pct_change().dropna()`: element `i > 0` becomes
`(x[i] - x[i-1]) / x[i-1]` and the leading NaN is dropped.  Division by a
zero predecessor is totalized to `0` (in floats it is `inf`/NaN; no claim
depends on a zero price except where noted). -/
def pctChange : List ℚ → List ℚ
  | [] => []
  | [_] => []
  | a :: b :: rest => (b - a) / a :: pctChange (b :: rest)

/-- Line 115: `df_returns`, the daily returns of the daily mean-price
series of the filtered view. -/
def dfReturns (v : List Record) : List ℚ :=
  pctChange (dailyMeanSeries v)

/-- numpy/pandas `.round(2)` integer part: round half to even. -/
def roundHalfEven (q : ℚ) : ℤ :=
  if q - ⌊q⌋ < 1 / 2 then ⌊q⌋
  else if 1 / 2 < q - ⌊q⌋ then ⌊q⌋ + 1
  else if 2 ∣ ⌊q⌋ then ⌊q⌋ else ⌊q⌋ + 1

/-- `.round(2)`: round to two decimal places, half to even. -/
def round2 (q : ℚ) : ℚ := (roundHalfEven (q * 100) : ℚ) / 100

/-- Line 111: `ultimo_precio = df_filtrado['Precio_Cierre'].iloc[-1].round(2)`.
The `getD 0` default is unreachable in the script: the empty view stops at
line 103 before this runs. -/
def ultimoPrecio (v : List Record) : ℚ :=
  round2 (((v.map Record.value).getLast?).getD 0)

/-- Line 116: `retorno_diario_promedio = df_returns.mean() * 100`. -/
def retornoDiarioPromedio (v : List Record) : ℚ :=
  pandasMean (dfReturns v) * 100

/-- pandas `Series.std()` under the square root: the default `ddof=1`
sample variance, sum of squared deviations from the mean over `n - 1`. -/
def pandasVar (xs : List ℚ) : ℚ :=
  ((xs.map (fun x => (x - pandasMean xs) ^ 2)).sum) / ((xs.length : ℚ) - 1)

/-- pandas `Series.std()` (sample standard deviation, `ddof=1`). -/
noncomputable def pandasStd (xs : List ℚ) : ℝ :=
  Real.sqrt ((pandasVar xs : ℚ) : ℝ)

/-- Line 120: `volatilidad_anualizada = df_returns.std() * np.sqrt(252) * 100`. -/
noncomputable def volatilidadAnualizada (v : List Record) : ℝ :=
  pandasStd (dfReturns v) * Real.sqrt 252 * 100

/-- Line 123: `total_dias = df_filtrado.index.normalize().nunique()`. -/
def totalDias (v : List Record) : Nat :=
  (v.map Record.day).dedup.length

/-! ### Load pipeline (lines 26-62, wrapped in try/except at 191-193) -/

/-- A raw CSV row after column inference: `dateCell` is `some d` exactly
when the raw date text parses to calendar day `d`, `valueCell` is `some q`
exactly when the closing price is a number (not NaN). -/
structure RawRow where
  dateCell : Option Nat
  valueCell : Option ℚ
  tickerCell : String
deriving DecidableEq, Repr

/-- Line 40: `pd.to_datetime(df[date_cols[0]])` with the default
`errors='raise'`: the first unparseable cell raises, aborting the whole
conversion; otherwise every parsed date is returned. -/
def toDatetimeStrict : List (Option Nat) → Except String (List Nat)
  | [] => Except.ok []
  | none :: _ => Except.error "date parse error"
  | some d :: rest =>
    match toDatetimeStrict rest with
    | Except.ok ds => Except.ok (d :: ds)
    | Except.error e => Except.error e

/-- A `RawRow` with a parseable date, as a `Record` (day-granular timestamp). -/
def RawRow.toRecord (r : RawRow) : Record :=
  ⟨r.dateCell.getD 0 * 86400, r.valueCell.getD 0, r.tickerCell⟩

/-- Lines 40 and 62 under the try/except of 191-193: convert the date
column strictly (any failure becomes the single caught error message), then
`dropna(subset=['Precio_Cierre'])` drops rows with a missing value.
Sorting of the index is omitted here: it permutes rows and is orthogonal to
which rows survive the load. -/
def loadRows (rows : List RawRow) : Except String (List Record) :=
  match toDatetimeStrict (rows.map RawRow.dateCell) with
  | Except.error e => Except.error e
  | Except.ok _ =>
    Except.ok ((rows.filter (fun r => r.valueCell.isSome)).map RawRow.toRecord)

/-! ### Render cycle (lines 101-189) -/

/-- The KPI cards of lines 126-148. -/
structure KpiBundle where
  ultimoPrecio : ℚ
  retornoDiarioPromedio : ℚ
  volatilidadAnualizada : ℝ
  totalDias : Nat

/-- Outcome of one render cycle: either the empty-view warning followed by
`st.stop()` (lines 101-103), or the KPIs plus the detail table of
`df_filtrado.head(100)` (line 189). -/
inductive RenderOutcome where
  | noData
  | rendered (kpis : KpiBundle) (table : List Record)

/-- Lines 95-189: filter, stop with the no-data warning when the view is
empty, otherwise compute every KPI from the whole view and show the first
100 rows. -/
noncomputable def renderPipeline (store : List Record) (ps : FilterParams) : RenderOutcome :=
  let v := filterRecords store ps
  if v.isEmpty then RenderOutcome.noData
  else
    RenderOutcome.rendered
      ⟨ultimoPrecio v, retornoDiarioPromedio v, volatilidadAnualizada v, totalDias v⟩
      (v.take 100)

/-! ### Spec-side definitions (for refinement comparisons)

These follow the spec's words (§4.4) rather than the script, and are
compared with the script-derived definitions above. -/

/-- Spec §4.4: arithmetic mean of a sequence (written as a fold, to be
compared with `pandasMean`). -/
def specMean (xs : List ℚ) : ℚ :=
  xs.foldl (· + ·) 0 / (xs.length : ℚ)

/-- Spec §4.4: sample variance with the N-1 convention (written as a fold,
to be compared with `pandasVar`). -/
def specSampleVariance (xs : List ℚ) : ℚ :=
  xs.foldl (fun a x => a + (x - specMean xs) ^ 2) 0 / ((xs.length : ℚ) - 1)

/-- Spec §4.4: sample standard deviation, N-1 convention. -/
noncomputable def specSampleStddev (xs : List ℚ) : ℝ :=
  Real.sqrt ((specSampleVariance xs : ℚ) : ℝ)

/-- Spec §8 round-trip: rebuild the value series from the first value and
the percent-change returns, `x[i] = x[i-1] * (1 + r[i])`. -/
def reconAux : ℚ → List ℚ → List ℚ
  | _, [] => []
  | prev, r :: rs => prev * (1 + r) :: reconAux (prev * (1 + r)) rs

/-- Spec §8 round-trip: the reconstructed series starts at the first value. -/
def reconstruct (first : ℚ) (rets : List ℚ) : List ℚ :=
  first :: reconAux first rets

/-- Spec §8 round-trip target: reconstruction from the first value and the
returns reproduces the series elementwise within `tol`. -/
def roundTripWithin (xs : List ℚ) (tol : ℚ) : Prop :=
  (reconstruct (xs.headD 0) (pctChange xs)).length = xs.length ∧
  ∀ i : Nat, |(reconstruct (xs.headD 0) (pctChange xs)).getD i 0 - xs.getD i 0| ≤ tol

/-! ### Concrete inputs used by examples and witnesses -/

/-- Spec §8 Example 2: single ticker ABC, closing prices 10, 11, 9 on three
consecutive days. -/
def exView : List Record :=
  [⟨0, 10, "ABC"⟩, ⟨86400, 11, "ABC"⟩, ⟨172800, 9, "ABC"⟩]

/-- A view whose records all fall on one calendar day, so that the daily
return series is empty. -/
def exViewOneDay : List Record := [⟨0, 10, "ABC"⟩]

/-- Three raw rows whose middle date cell fails to parse. -/
def badRows : List RawRow :=
  [⟨some 0, some 10, "A"⟩, ⟨none, some 11, "A"⟩, ⟨some 2, some 9, "A"⟩]

/-- Two raw rows with parseable dates, the second with a missing value. -/
def goodRows : List RawRow :=
  [⟨some 0, some 10, "A"⟩, ⟨some 1, none, "A"⟩]

/-! ## Helper lemmas -/

/-- `find?` returns the head of the filtered list: the first element
satisfying the predicate. -/
theorem find_eq_head_filter {α : Type} (p : α → Bool) (l : List α) :
    l.find? p = (l.filter p).head? := by
  induction l with
  | nil => rfl
  | cons a t ih =>
    rw [List.find?_cons, List.filter_cons]
    cases h : p a
    · simpa using ih
    · simp

/-- Strict date conversion fails as soon as any cell is unparseable. -/
theorem toDatetime_error_of_none (cells : List (Option Nat)) (h : none ∈ cells) :
    toDatetimeStrict cells = Except.error "date parse error" := by
  induction cells with
  | nil => cases h
  | cons c t ih =>
    cases c with
    | none => rfl
    | some d =>
      have ht : none ∈ t := by
        cases h with
        | tail _ h => exact h
      simp [toDatetimeStrict, ih ht]

/-- Strict date conversion succeeds when every cell parses. -/
theorem toDatetime_ok_of_all (cells : List (Option Nat)) (h : ∀ c ∈ cells, c ≠ none) :
    ∃ ds, toDatetimeStrict cells = Except.ok ds := by
  induction cells with
  | nil => exact ⟨[], rfl⟩
  | cons c t ih =>
    obtain ⟨ds, hds⟩ := ih (fun x hx => h x (List.mem_cons_of_mem c hx))
    cases c with
    | none => exact absurd rfl (h none (List.mem_cons_self none t))
    | some d => exact ⟨d :: ds, by simp [toDatetimeStrict, hds]⟩

/-- A left fold accumulating `f` of each element is the sum of the mapped
list. -/
theorem foldl_add_map_sum (f : ℚ → ℚ) (l : List ℚ) (c : ℚ) :
    l.foldl (fun a x => a + f x) c = c + (l.map f).sum := by
  induction l generalizing c with
  | nil => simp
  | cons a t ih => simp [ih, add_assoc]

/-- The spec's mean coincides with the pandas mean. -/
theorem specMean_eq_pandasMean (xs : List ℚ) : specMean xs = pandasMean xs := by
  unfold specMean pandasMean
  rw [foldl_add_map_sum (fun x => x) xs 0]
  simp

/-- The spec's N-1 sample variance coincides with the pandas `ddof=1`
variance. -/
theorem specVar_eq_pandasVar (xs : List ℚ) : specSampleVariance xs = pandasVar xs := by
  unfold specSampleVariance pandasVar
  rw [foldl_add_map_sum (fun x => (x - specMean xs) ^ 2) xs 0, specMean_eq_pandasMean]
  simp

/-- Reconstruction inverts `pctChange` along a series whose elements with a
successor are nonzero. -/
theorem reconAux_pctChange (rest : List ℚ) : ∀ x : ℚ, (rest = [] ∨ x ≠ 0) →
    (∀ y ∈ rest.dropLast, y ≠ 0) → reconAux x (pctChange (x :: rest)) = rest := by
  induction rest with
  | nil => intro x _ _; rfl
  | cons b rs ih =>
    intro x hx hz
    have hx0 : x ≠ 0 := hx.resolve_left (by simp)
    show reconAux x ((b - x) / x :: pctChange (b :: rs)) = b :: rs
    unfold reconAux
    have hb : x * (1 + (b - x) / x) = b := by field_simp
    rw [hb]
    congr 1
    apply ih b
    · cases rs with
      | nil => exact Or.inl rfl
      | cons c cs =>
        right
        apply hz
        simp [List.dropLast]
    · intro y hy
      apply hz
      cases rs with
      | nil => simp at hy
      | cons c cs =>
        rw [show (b :: c :: cs).dropLast = b :: (c :: cs).dropLast by simp [List.dropLast]]
        exact List.mem_cons_of_mem b hy

/-! ## Claims -/

/-- C1: for every record store and filter parameters, the filter produces
the ordered subsequence of the store containing exactly the records whose
day lies in `[startDate, endDate]` and whose ticker is among the selected
categories — store order preserved, no duplication — and an empty category
selection yields the empty view (no error: the function is total). -/
theorem filter_view_exact_ordered_subsequence (store : List Record) (ps : FilterParams) :
    List.Sublist (filterRecords store ps) store ∧
    (∀ r : Record, r ∈ filterRecords store ps ↔
      r ∈ store ∧ ps.startDate ≤ r.day ∧ r.day ≤ ps.endDate ∧ r.ticker ∈ ps.categories) ∧
    (ps.categories = [] → filterRecords store ps = []) := by
  refine ⟨List.filter_sublist store, fun r => ?_, fun h => ?_⟩
  · rw [filterRecords, List.mem_filter, matchesFilter]
    simp [and_assoc]
  · unfold filterRecords
    rw [List.filter_eq_nil_iff]
    intro r _
    simp [matchesFilter, h]

/-- C1 witness: the empty ticker selection empties the example store. -/
theorem filter_view_empty_categories_witness :
    filterRecords exView ⟨0, 2, []⟩ = [] :=
  (filter_view_exact_ordered_subsequence exView ⟨0, 2, []⟩).2.2 rfl

/-- C2: on the single-ticker view with prices 10, 11, 9 on consecutive
days, the daily returns are `[1/10, -2/11]` (that is, 0.10 and -0.1818...),
the last price is 9.00, and three days are analyzed. -/
theorem price_profile_example_kpis :
    dfReturns exView = [1 / 10, -2 / 11] ∧
    ultimoPrecio exView = 9 ∧
    totalDias exView = 3 := by
  refine ⟨?_, ?_, by decide⟩
  · norm_num [dfReturns, dailyMeanSeries, distinctDays, meanOfDay, pandasMean, exView,
      Record.day, dayOfTs, sortNats, insertNat, List.dedup, pctChange]
  · norm_num [ultimoPrecio, exView, round2, roundHalfEven]

/-- C3: column inference picks the first date-like, price-like, and
ticker-like column name; with no ticker-like column every row receives the
synthesized category STOCK_PRINCIPAL (not an error); and over the header
Trade_Date, Close_USD, Symbol it selects Trade_Date as date, Close_USD as
value, Symbol as category. -/
theorem column_inference_first_match (cols : List String) (rows : List Row) :
    dateColumn cols = (cols.filter isDateLike).head? ∧
    priceColumn cols = (cols.filter isPriceLike).head? ∧
    tickerColumn cols = (cols.filter isTickerLike).head? ∧
    (tickerColumn cols = none → ∀ t ∈ assignTickers cols rows, t = "STOCK_PRINCIPAL") ∧
    dateColumn ["Trade_Date", "Close_USD", "Symbol"] = some "Trade_Date" ∧
    priceColumn ["Trade_Date", "Close_USD", "Symbol"] = some "Close_USD" ∧
    tickerColumn ["Trade_Date", "Close_USD", "Symbol"] = some "Symbol" := by
  refine ⟨find_eq_head_filter _ cols, find_eq_head_filter _ cols, find_eq_head_filter _ cols,
    fun h t ht => ?_, by decide, by decide, by decide⟩
  unfold assignTickers at ht
  rw [h] at ht
  simp only [List.mem_map] at ht
  obtain ⟨_, _, hz⟩ := ht
  exact hz.symm

/-- C3 witness: a header with no ticker-like column makes the first
assigned category the sentinel. -/
theorem column_inference_fallback_witness :
    (assignTickers ["Trade_Date", "Close_USD"] [[("A", "x")]]).getD 0 "" = "STOCK_PRINCIPAL" :=
  (column_inference_first_match ["Trade_Date", "Close_USD"] [[("A", "x")]]).2.2.2.1
    (by decide) _ (by decide)

/-- C4: when the filtered view is empty the render cycle stops with the
no-data outcome — no KPI, chart, or detail table is computed, and nothing
divides by zero (the pipeline is a total function). -/
theorem empty_view_yields_no_data (store : List Record) (ps : FilterParams)
    (h : filterRecords store ps = []) :
    renderPipeline store ps = RenderOutcome.noData := by
  simp [renderPipeline, h]

/-- C4 witness: the empty ticker selection renders the no-data outcome. -/
theorem empty_view_yields_no_data_witness :
    renderPipeline exView ⟨0, 2, []⟩ = RenderOutcome.noData :=
  empty_view_yields_no_data exView ⟨0, 2, []⟩ (by decide)

/-- C5 counterexample: with one unparseable date among three rows, the load
returns an error — the two well-formed rows are not kept, contradicting the
claim that a per-row date parse failure never aborts the whole load. -/
theorem date_parse_failure_counterexample :
    loadRows badRows = Except.error "date parse error" ∧
    (loadRows badRows).isOk = false :=
  ⟨rfl, rfl⟩

/-- C5 amended: a row whose date fails to parse aborts the entire load with
the single caught error (no partial rows survive), while rows whose value
cell is missing are dropped individually when every date parses. -/
theorem date_parse_failure_aborts_load (rows : List RawRow) :
    ((∃ r ∈ rows, r.dateCell = none) → loadRows rows = Except.error "date parse error") ∧
    ((∀ r ∈ rows, r.dateCell ≠ none) →
      loadRows rows =
        Except.ok ((rows.filter (fun r => r.valueCell.isSome)).map RawRow.toRecord)) := by
  constructor
  · rintro ⟨r, hr, hcell⟩
    have hmem : none ∈ rows.map RawRow.dateCell := List.mem_map.mpr ⟨r, hr, hcell⟩
    unfold loadRows
    rw [toDatetime_error_of_none _ hmem]
  · intro h
    obtain ⟨ds, hds⟩ := toDatetime_ok_of_all (rows.map RawRow.dateCell) (by
      intro c hc
      obtain ⟨r, hr, rfl⟩ := List.mem_map.mp hc
      exact h r hr)
    unfold loadRows
    rw [hds]

/-- C5 witness: a bad date aborts the three-row load; with all dates
parseable, only the row with a missing value is dropped. -/
theorem date_parse_failure_aborts_load_witness :
    loadRows badRows = Except.error "date parse error" ∧
    loadRows goodRows =
      Except.ok ((goodRows.filter (fun r => r.valueCell.isSome)).map RawRow.toRecord) :=
  ⟨(date_parse_failure_aborts_load badRows).1 (by decide),
   (date_parse_failure_aborts_load goodRows).2 (by decide)⟩

/-- C6: for every view with a non-empty daily-return sequence, the
annualized volatility equals the N-1 sample standard deviation of the daily
returns times the square root of 252, times 100. -/
theorem annualized_volatility_formula (v : List Record) (h : dfReturns v ≠ []) :
    volatilidadAnualizada v = specSampleStddev (dfReturns v) * Real.sqrt 252 * 100 := by
  unfold volatilidadAnualizada pandasStd specSampleStddev
  rw [specVar_eq_pandasVar]

/-- C6 witness: the three-day example view has two daily returns, and its
volatility satisfies the formula. -/
theorem annualized_volatility_formula_witness :
    dfReturns exView ≠ [] ∧
    volatilidadAnualizada exView = specSampleStddev (dfReturns exView) * Real.sqrt 252 * 100 :=
  have h : dfReturns exView ≠ [] := List.length_pos.mp (by decide)
  ⟨h, annualized_volatility_formula exView h⟩

/-- C7: the average daily return is the mean of the daily returns times
100, and on an empty daily-return sequence (for instance a single-day view)
it degrades to the zero sentinel of the totalized mean instead of raising. -/
theorem average_daily_return_formula (v : List Record) :
    retornoDiarioPromedio v = specMean (dfReturns v) * 100 ∧
    (dfReturns v = [] → retornoDiarioPromedio v = 0) := by
  constructor
  · unfold retornoDiarioPromedio
    rw [specMean_eq_pandasMean]
  · intro h
    unfold retornoDiarioPromedio
    rw [h]
    simp [pandasMean]

/-- C7 witness: the formula at the three-day view, and the zero sentinel at
a single-day view whose return series is empty. -/
theorem average_daily_return_formula_witness :
    retornoDiarioPromedio exView = specMean (dfReturns exView) * 100 ∧
    dfReturns exViewOneDay = [] ∧
    retornoDiarioPromedio exViewOneDay = 0 :=
  ⟨(average_daily_return_formula exView).1, by decide,
   (average_daily_return_formula exViewOneDay).2 (by decide)⟩

/-- C8 counterexample: the round trip fails on the series 0, 1 — the zero
first value makes the percent change divide by zero, and the reconstructed
second element differs from the original by 1, far beyond the 1e-9
tolerance. -/
theorem round_trip_fails_at_zero_price : ¬ roundTripWithin [0, 1] (1 / 1000000000) := by
  intro h
  have h1 := h.2 1
  have hrec : reconstruct (([(0 : ℚ), 1]).headD 0) (pctChange [0, 1]) = [0, 0] := by
    norm_num [reconstruct, reconAux, pctChange]
  rw [hrec] at h1
  norm_num [List.getD] at h1

/-- C8 amended: for every non-empty value series in which every element
with a successor is nonzero, reconstructing from the first value and the
percent-change returns reproduces the series exactly, hence elementwise
within the 1e-9 tolerance. -/
theorem round_trip_reconstruction (xs : List ℚ) (h1 : xs ≠ [])
    (h2 : ∀ y ∈ xs.dropLast, y ≠ 0) :
    reconstruct (xs.headD 0) (pctChange xs) = xs ∧ roundTripWithin xs (1 / 1000000000) := by
  obtain ⟨x, rest, rfl⟩ := List.exists_cons_of_ne_nil h1
  have hx : rest = [] ∨ x ≠ 0 := by
    cases rest with
    | nil => exact Or.inl rfl
    | cons b rs =>
      right
      apply h2
      rw [show (x :: b :: rs).dropLast = x :: (b :: rs).dropLast by simp [List.dropLast]]
      exact List.mem_cons_self x _
  have hz : ∀ y ∈ rest.dropLast, y ≠ 0 := by
    intro y hy
    apply h2
    cases rest with
    | nil => simp at hy
    | cons b rs =>
      rw [show (x :: b :: rs).dropLast = x :: (b :: rs).dropLast by simp [List.dropLast]]
      exact List.mem_cons_of_mem x hy
  have key : reconAux x (pctChange (x :: rest)) = rest := reconAux_pctChange rest x hx hz
  have hmain : reconstruct ((x :: rest).headD 0) (pctChange (x :: rest)) = x :: rest := by
    show x :: reconAux x (pctChange (x :: rest)) = x :: rest
    rw [key]
  refine ⟨hmain, ?_, ?_⟩
  · rw [hmain]
  · intro i
    rw [hmain]
    simp

/-- C8 witness: the round trip reproduces the price series 10, 11, 9. -/
theorem round_trip_reconstruction_witness :
    ([10, 11, 9] : List ℚ) ≠ [] ∧
    reconstruct (([(10 : ℚ), 11, 9]).headD 0) (pctChange [10, 11, 9]) = [10, 11, 9] ∧
    roundTripWithin [10, 11, 9] (1 / 1000000000) :=
  have h1 : ([10, 11, 9] : List ℚ) ≠ [] := by simp
  have h2 : ∀ y ∈ ([10, 11, 9] : List ℚ).dropLast, y ≠ 0 := by decide
  ⟨h1, (round_trip_reconstruction [10, 11, 9] h1 h2).1,
   (round_trip_reconstruction [10, 11, 9] h1 h2).2⟩

/-- C9: on a non-empty filtered view the render cycle shows at most the
first 100 rows of the view, in view order (a prefix), while every KPI is
computed from the entire view. -/
theorem detail_table_first_100_rows (store : List Record) (ps : FilterParams)
    (h : filterRecords store ps ≠ []) :
    renderPipeline store ps =
      RenderOutcome.rendered
        ⟨ultimoPrecio (filterRecords store ps),
         retornoDiarioPromedio (filterRecords store ps),
         volatilidadAnualizada (filterRecords store ps),
         totalDias (filterRecords store ps)⟩
        ((filterRecords store ps).take 100) ∧
    ((filterRecords store ps).take 100).length ≤ 100 ∧
    (filterRecords store ps).take 100 <+: filterRecords store ps := by
  refine ⟨?_, ?_, List.take_prefix 100 _⟩
  · simp [renderPipeline, h]
  · simp [List.length_take]

/-- C9 witness: the example store with its ticker selected renders the KPIs
of the whole view and the 100-row-truncated table. -/
theorem detail_table_first_100_rows_witness :
    renderPipeline exView ⟨0, 2, ["ABC"]⟩ =
      RenderOutcome.rendered
        ⟨ultimoPrecio (filterRecords exView ⟨0, 2, ["ABC"]⟩),
         retornoDiarioPromedio (filterRecords exView ⟨0, 2, ["ABC"]⟩),
         volatilidadAnualizada (filterRecords exView ⟨0, 2, ["ABC"]⟩),
         totalDias (filterRecords exView ⟨0, 2, ["ABC"]⟩)⟩
        ((filterRecords exView ⟨0, 2, ["ABC"]⟩).take 100) ∧
    ((filterRecords exView ⟨0, 2, ["ABC"]⟩).take 100).length ≤ 100 ∧
    (filterRecords exView ⟨0, 2, ["ABC"]⟩).take 100 <+: filterRecords exView ⟨0, 2, ["ABC"]⟩ :=
  detail_table_first_100_rows exView ⟨0, 2, ["ABC"]⟩ (by decide)

/-- C10: when the date-range widget supplies fewer than two endpoints, the
resolved range falls back to the store's full date range — the minimum and
maximum store dates — instead of failing or producing a half-open range. -/
theorem date_range_single_endpoint_fallback (dr : List Nat) (store : List Record)
    (h : dr.length < 2) :
    resolveDateRange dr (storeMinDate store) (storeMaxDate store) =
      (storeMinDate store, storeMaxDate store) := by
  match dr, h with
  | [], _ => rfl
  | [d], _ => rfl

/-- C10 witness: a single selected date on the example store resolves to
the store's full range. -/
theorem date_range_single_endpoint_fallback_witness :
    resolveDateRange [5] (storeMinDate exView) (storeMaxDate exView) =
      (storeMinDate exView, storeMaxDate exView) :=
  date_range_single_endpoint_fallback [5] exView (by decide)

end StockDashboard
